import Mathlib

/-!
# Verification of `bot.py` (Bitrix24 lead-escalation Telegram bot)

Shallow embedding of the program in `src/bot.py`.  Remote I/O (the HTTP
transport of `requests.post` and the Telegram send/edit/answer calls) is made
explicit: every function that performs a remote call takes the outcome of that
call as a parameter, and functions that send messages return the list of
messages they sent together with a flag telling whether they ran to completion
(`false` means a Python exception escaped the function).  Wall-clock time is a
parameter `now` measured in seconds.
-/

namespace BotPy

/-! ## Data model: leads as returned by the CRM

A lead is the JSON dictionary produced by `crm.lead.list` with
`select = ["ID", "TITLE", "PHONE"]`.  `ID` and `TITLE` are always present in
such a response; `PHONE` may be absent (`none`), and when present it is a list
of dictionaries each of which may or may not carry a `VALUE` key. -/

structure PhoneEntry where
  /-- `entry.get('VALUE', default)`: `none` models an absent `VALUE` key. -/
  VALUE : Option String
deriving DecidableEq

structure Lead where
  ID : String
  TITLE : String
  /-- `none` models an absent `PHONE` key. -/
  PHONE : Option (List PhoneEntry)
deriving DecidableEq

/-! ## CRM Gateway: `get_overdue_leads` (bot.py lines 34-64) -/

/-- Seconds in two hours, `timedelta(hours=2)`. -/
def two_hours : Int := 7200

/-- A value in the `filter` dictionary of the lead-list request: either a
plain string or a timestamp (`two_hours_ago.isoformat()` carries a point in
time; we keep the point in time itself). -/
inductive FilterVal
  | str (s : String)
  | time (t : Int)
deriving DecidableEq

/-- The request body built by `get_overdue_leads` before the HTTP call. -/
structure LeadListRequest where
  method : String
  order : List (String × String)
  filter : List (String × FilterVal)
  select : List String
deriving DecidableEq

/-- bot.py lines 34-47: the `params` dictionary sent to `crm.lead.list`.
`now` is `datetime.now(timezone.utc)` in seconds. -/
def get_overdue_leads_request (now : Int) : LeadListRequest :=
  { method := "crm.lead.list"
    order := [("DATE_CREATE", "ASC")]
    filter := [("STATUS_ID", FilterVal.str "NEW"),
               ("<DATE_CREATE", FilterVal.time (now - two_hours))]
    select := ["ID", "TITLE", "PHONE"] }

/-- The body of the HTTP response as the code observes it through
`response.json()`:
* `malformed`: `response.json()` raises (a `RequestException` subclass);
* `wellFormed hasError result`: a parsed JSON dictionary; `hasError` records
  whether it carries an `error` key (the code never looks at it) and `result`
  is the value of its `result` key (`none` when the key is absent). -/
inductive Body
  | malformed
  | wellFormed (hasError : Bool) (result : Option (List Lead))
deriving DecidableEq

/-- Outcome of `requests.post` for the lead-list call. -/
inductive HttpOutcome
  | transportError
  | response (status : Nat) (body : Body)
deriving DecidableEq

/-- `response.raise_for_status()` raises `HTTPError` exactly for status codes
400-599 (client and server errors). -/
def raise_for_status_raises (status : Nat) : Bool :=
  400 ≤ status && status < 600

/-- bot.py lines 49-64: the `try` block of `get_overdue_leads`.
Returns `none` where the Python returns `None` (a `RequestException` was
caught: transport failure, `raise_for_status`, or JSON decoding), and
`some leads` / `some []` where the Python returns the lead list / `[]`. -/
def get_overdue_leads (resp : HttpOutcome) : Option (List Lead) :=
  match resp with
  | .transportError => none
  | .response status body =>
    if raise_for_status_raises status then none
    else
      match body with
      | .malformed => none
      | .wellFormed _ result =>
        match result with
        | some leads => if leads.isEmpty then some [] else some leads
        | none => some []

/-! ## Notification rendering and the send loop (bot.py lines 113-149) -/

/-- An inline keyboard button (text, callback_data). -/
structure Button where
  text : String
  callback_data : String
deriving DecidableEq

/-- bot.py lines 113-120: `get_lead_keyboard`. -/
def get_lead_keyboard (lead_id : String) : List Button :=
  [ { text := "✅ Позвонил", callback_data := "called:" ++ lead_id },
    { text := "💬 Написал", callback_data := "wrote:" ++ lead_id },
    { text := "⏳ Отложить 2 часа", callback_data := "delay:" ++ lead_id } ]

/-- bot.py line 135: `lead.get('PHONE', [{}])[0].get('VALUE', 'не указан')`.
`none` means the expression raises `IndexError` (the `[0]` on an empty list);
`some s` is the extracted phone string. -/
def extract_phone (lead : Lead) : Option String :=
  match lead.PHONE.getD [{ VALUE := none }] with
  | [] => none
  | entry :: _ => some (entry.VALUE.getD "не указан")

/-- bot.py lines 137-142: the message text for one lead. -/
def lead_message_text (lead_id title phone : String) : String :=
  "**Просроченный лид!**\n\n**ID:** `" ++ lead_id ++ "`\n**Название:** " ++
    title ++ "\n**Телефон:** `" ++ phone ++ "\n`"

/-- A message sent to the manager chat. -/
inductive OutMsg
  | plain (text : String)
  | withKeyboard (text : String) (kb : List Button)
deriving DecidableEq

/-- bot.py line 126: the diagnostic text sent when `get_overdue_leads`
returned `None`. -/
def crm_unreachable_text : String :=
  "Не удалось подключиться к Bitrix24. Проверьте настройки или API."

/-- The message the loop body sends for one lead (assuming phone extraction
succeeded; the empty string stands in for the impossible `none` case). -/
def render_lead (lead : Lead) : OutMsg :=
  .withKeyboard
    (lead_message_text lead.ID lead.TITLE ((extract_phone lead).getD ""))
    (get_lead_keyboard lead.ID)

/-- bot.py lines 132-149: the `for lead in leads` loop.  `sendOk i` tells
whether the i-th `bot.send_message` call succeeds (`false`: it raises).
Returns the messages actually sent, and `true` iff the loop ran to completion
(no exception escaped).  There is no `try` inside the loop: a raising send, or
an `IndexError` from phone extraction, aborts the whole iteration. -/
def send_overdue_loop (sendOk : Nat → Bool) : List Lead → Nat → List OutMsg × Bool
  | [], _ => ([], true)
  | lead :: rest, i =>
    match extract_phone lead with
    | none => ([], false)
    | some _ =>
      if sendOk i then
        let r := send_overdue_loop sendOk rest (i + 1)
        (render_lead lead :: r.1, r.2)
      else ([], false)

/-- bot.py lines 123-149: `send_leads_to_manager`, given the already-computed
result of `get_overdue_leads` and the send oracle. -/
def send_leads_to_manager (fetch : Option (List Lead)) (sendOk : Nat → Bool) :
    List OutMsg × Bool :=
  match fetch with
  | none =>
    if sendOk 0 then ([.plain crm_unreachable_text], true) else ([], false)
  | some leads => send_overdue_loop sendOk leads 0

/-! ## CRM Gateway: write operations (bot.py lines 67-108)

Each write operation sends one HTTP request; we record the request and make
the HTTP outcome a boolean parameter (`true`: the call succeeded with a 2xx,
parseable response; `false`: a `RequestException` occurred, which the function
catches, logs, and converts to `None`). -/

/-- An outbound CRM request made by a write operation. -/
inductive GatewayCall
  | timelineCommentAdd (entity_id : String) (entity_type : String)
      (comment : String)
  | taskAdd (title : String) (responsible_id : Nat) (deadline : Int)
      (uf_crm_task : List String)
deriving DecidableEq

/-- bot.py lines 70-76: the request body of `add_comment_to_lead`. -/
def add_comment_request (lead_id text : String) : GatewayCall :=
  .timelineCommentAdd lead_id "lead" text

/-- bot.py lines 93-100: the request body of `create_task_for_lead`; `now` is
`datetime.now(timezone.utc)` in seconds, the deadline is `now + 2h`. -/
def create_task_request (now : Int) (lead_id : String) : GatewayCall :=
  .taskAdd ("Связаться с клиентом по лиду №" ++ lead_id) 1 (now + two_hours)
    ["L_" ++ lead_id]

/-- bot.py lines 67-84: `add_comment_to_lead`.  Returns the request it sent
and the value it returns to its caller (`none` on a caught
`RequestException`, `some ()` standing for the parsed response JSON). -/
def add_comment_to_lead (http_ok : Bool) (lead_id text : String) :
    GatewayCall × Option Unit :=
  (add_comment_request lead_id text, if http_ok then some () else none)

/-- bot.py lines 87-108: `create_task_for_lead`. -/
def create_task_for_lead (http_ok : Bool) (now : Int) (lead_id : String) :
    GatewayCall × Option Unit :=
  (create_task_request now lead_id, if http_ok then some () else none)

/-! ## Action handlers (bot.py lines 152-176)

Each handler receives `callback.data` (a string `kind:leadId`) and the current
text of the notification message; it performs exactly one Gateway call,
rewrites the message text and answers the callback.  `lead_id` is
`callback.data.split(':')[1]`; the handler result is `none` when that indexing
raises (no `:` in the data), which cannot happen for data produced by
`get_lead_keyboard`. -/

/-- Python `s.split(':')` on the character list of `s`. -/
def splitColon : List Char → List (List Char)
  | [] => [[]]
  | c :: rest =>
    match splitColon rest with
    | [] => []
    | g :: gs => if c = ':' then [] :: g :: gs else (c :: g) :: gs

/-- `callback.data.split(':')[1]`: `none` models the `IndexError` when the
data contains no colon. -/
def extract_lead_id (data : String) : Option String :=
  ((splitColon data.data).map fun l => String.mk l).get? 1

/-- What one handler invocation did: the Gateway requests it issued, the text
it rewrote the notification message to (`edit_text`), and the toast it
answered the callback with. -/
structure HandlerResult where
  calls : List GatewayCall
  newText : String
  ack : String
deriving DecidableEq

/-- bot.py line 156: label appended by the `called` handler. -/
def called_label : String := "\n\n*Статус: ✅ Обработан (звонок)*"

/-- bot.py line 165: label appended by the `wrote` handler. -/
def wrote_label : String := "\n\n*Статус: 💬 Обработан (написал)*"

/-- bot.py line 174: label appended by the `delay` handler. -/
def delay_label : String := "\n\n*Статус: ⏳ Задача на перезвон создана*"

/-- bot.py lines 152-158: `process_callback_called`.  `http_ok` is the
outcome of the HTTP call inside `add_comment_to_lead` (whose return value the
handler discards). -/
def process_callback_called (http_ok : Bool) (data msgText : String) :
    Option HandlerResult :=
  match extract_lead_id data with
  | none => none
  | some lead_id =>
    let comment := add_comment_to_lead http_ok lead_id "Менеджер позвонил клиенту."
    some { calls := [comment.1]
           newText := msgText ++ called_label
           ack := "Отметили звонок по лиду " ++ lead_id }

/-- bot.py lines 161-167: `process_callback_wrote`. -/
def process_callback_wrote (http_ok : Bool) (data msgText : String) :
    Option HandlerResult :=
  match extract_lead_id data with
  | none => none
  | some lead_id =>
    let comment := add_comment_to_lead http_ok lead_id "Менеджер написал клиенту."
    some { calls := [comment.1]
           newText := msgText ++ wrote_label
           ack := "Отметили сообщение по лиду " ++ lead_id }

/-- bot.py lines 170-176: `process_callback_delay`; `now` is the tap time. -/
def process_callback_delay (http_ok : Bool) (now : Int) (data msgText : String) :
    Option HandlerResult :=
  match extract_lead_id data with
  | none => none
  | some lead_id =>
    let task := create_task_for_lead http_ok now lead_id
    some { calls := [task.1]
           newText := msgText ++ delay_label
           ack := "Создана задача для лида " ++ lead_id }

/-! ## Scheduler loop: `periodic_check` (bot.py lines 25-32)

The loop body runs `send_leads_to_manager`, catches any `Exception` it raises
and logs it, then sleeps; the loop never terminates on its own (only external
task cancellation stops it).  We model the observable trace of its first `n`
iterations, driven by an oracle giving the outcome of each cycle. -/

/-- Outcome of one `send_leads_to_manager()` invocation inside the loop:
normal return, or a raised `Exception` with message `e`. -/
inductive CycleOutcome
  | ok
  | exc (e : String)
deriving DecidableEq

/-- An observable event of the scheduler loop. -/
inductive LoopEvent
  | runCycle (o : CycleOutcome)
  | logError (e : String)
  | sleep (seconds : Nat)
deriving DecidableEq

/-- One iteration of the `while True` body: run the cycle, log if it raised,
then sleep.  Every outcome yields a complete iteration ending in `sleep`. -/
def periodic_check_iteration (interval : Nat) : CycleOutcome → List LoopEvent
  | .ok => [.runCycle .ok, .sleep interval]
  | .exc e => [.runCycle (.exc e), .logError e, .sleep interval]

/-- The event trace of the first `n` iterations of `periodic_check interval`,
where `outcomes i` is what the i-th cycle invocation did. -/
def periodic_check_trace (interval : Nat) (outcomes : Nat → CycleOutcome) :
    Nat → List LoopEvent
  | 0 => []
  | n + 1 =>
    periodic_check_trace interval outcomes n ++
      periodic_check_iteration interval (outcomes n)

/-- Number of cycle invocations in a trace. -/
def countCycles (events : List LoopEvent) : Nat :=
  events.countP fun e =>
    match e with
    | .runCycle _ => true
    | _ => false

/-! ## Scheduler handle: the `periodic_check_task` global
(bot.py lines 23, 191-212)

`periodic_check_task` is `None` or an `asyncio.Task`.  We give every created
task a fresh id, keep the set of loop tasks that are currently alive (created
and neither finished nor cancelled), and model `task.done()` as membership in
that set.  `periodic_check` never returns on its own (its body catches every
`Exception`), so in this model a task leaves `activeIds` only when
`turn_off_periodic_check` cancels it. -/

structure SchedState where
  /-- the global `periodic_check_task` variable: `some id` is a task object. -/
  handle : Option Nat
  /-- ids of periodic-loop tasks currently alive. -/
  activeIds : List Nat
  /-- fresh-id counter. -/
  nextId : Nat
deriving DecidableEq

/-- Process start: `periodic_check_task = None`, no loop running. -/
def initSched : SchedState := { handle := none, activeIds := [], nextId := 0 }

/-- `periodic_check_task and not periodic_check_task.done()`. -/
def handle_is_active (s : SchedState) : Bool :=
  match s.handle with
  | none => false
  | some id => s.activeIds.contains id

/-- bot.py lines 195, 199-200: replies of `turn_on_periodic_check`. -/
def already_on_text : String := "Периодическая проверка уже включена."

def turned_on_text : String :=
  "Включил периодическую проверку лидов.\n" ++
    "Используй /turn_off_periodic_check чтобы выключить периодическую проверку лидов\n"

/-- bot.py lines 206, 211-212: replies of `turn_off_periodic_check`. -/
def already_off_text : String := "Периодическая проверка уже выключена."

def turned_off_text : String :=
  "Выключил периодическую проверку лидов.\n" ++
    "Используй /turn_on_periodic_check чтобы включить периодическую проверку лидов\n"

/-- bot.py lines 191-200: `/turn_on_periodic_check`.  If a not-done task is
held, reply "already on" and change nothing; else create a fresh loop task and
store it in the global. -/
def turn_on_periodic_check (s : SchedState) : SchedState × String :=
  if handle_is_active s then (s, already_on_text)
  else
    ({ handle := some s.nextId
       activeIds := s.nextId :: s.activeIds
       nextId := s.nextId + 1 },
     turned_on_text)

/-- bot.py lines 202-212: `/turn_off_periodic_check`.  If no task is held or
it is done, reply "already off" and change nothing; else cancel the held task
and clear the global. -/
def turn_off_periodic_check (s : SchedState) : SchedState × String :=
  if handle_is_active s then
    match s.handle with
    | some id =>
      ({ handle := none, activeIds := s.activeIds.erase id, nextId := s.nextId },
       turned_off_text)
    | none => (s, already_off_text)
  else (s, already_off_text)

/-- A command affecting the scheduler handle. -/
inductive SchedCmd
  | enable
  | disable
deriving DecidableEq

def schedStep (s : SchedState) : SchedCmd → SchedState
  | .enable => (turn_on_periodic_check s).1
  | .disable => (turn_off_periodic_check s).1

/-- The scheduler state after a sequence of enable/disable commands from
process start. -/
def runSched (cmds : List SchedCmd) : SchedState :=
  cmds.foldl schedStep initSched

/-- Invariant of the scheduler handle: either no task is held and no loop is
alive, or exactly one loop task is alive and it is the held one. -/
def SchedInv (s : SchedState) : Prop :=
  (s.handle = none ∧ s.activeIds = []) ∨
    ∃ id, s.handle = some id ∧ s.activeIds = [id]

/-- The condition under which the `try` block of `get_overdue_leads` raises a
`RequestException` (and the function therefore returns `None`): transport
failure, an error status caught by `raise_for_status`, or a body that
`response.json()` cannot parse. -/
def gateway_request_raises : HttpOutcome → Bool
  | .transportError => true
  | .response status body =>
    raise_for_status_raises status ||
      match body with
      | .malformed => true
      | .wellFormed _ _ => false

/-! ## Helper lemmas -/

theorem extract_phone_eq_none_iff (l : Lead) :
    extract_phone l = none ↔ l.PHONE = some [] := by
  cases hp : l.PHONE with
  | none => simp [extract_phone, hp]
  | some entries =>
    cases entries with
    | nil => simp [extract_phone, hp]
    | cons e rest => simp [extract_phone, hp]

theorem send_overdue_loop_all_ok (sendOk : Nat → Bool)
    (hsend : ∀ i, sendOk i = true) :
    ∀ (leads : List Lead) (j : Nat), (∀ l ∈ leads, l.PHONE ≠ some []) →
      send_overdue_loop sendOk leads j = (leads.map render_lead, true) := by
  intro leads
  induction leads with
  | nil => intro j _; rfl
  | cons l rest ih =>
    intro j h
    have hl : l.PHONE ≠ some [] := h l (by simp)
    have hp : extract_phone l ≠ none := by
      rw [Ne, extract_phone_eq_none_iff]; exact hl
    obtain ⟨p, hp⟩ := Option.ne_none_iff_exists'.mp hp
    have hrest := ih (j + 1) (fun x hx => h x (by simp [hx]))
    simp [send_overdue_loop, hp, hsend j, hrest]

theorem send_overdue_loop_first_failure (sendOk : Nat → Bool) :
    ∀ (leads : List Lead) (j k : Nat), (∀ l ∈ leads, l.PHONE ≠ some []) →
      k < leads.length → (∀ i, i < k → sendOk (j + i) = true) →
      sendOk (j + k) = false →
      send_overdue_loop sendOk leads j = ((leads.take k).map render_lead, false) := by
  intro leads
  induction leads with
  | nil => intro j k _ hk; exact absurd hk (by simp)
  | cons l rest ih =>
    intro j k h hk hbefore hfail
    have hl : l.PHONE ≠ some [] := h l (by simp)
    have hp : extract_phone l ≠ none := by
      rw [Ne, extract_phone_eq_none_iff]; exact hl
    obtain ⟨p, hp⟩ := Option.ne_none_iff_exists'.mp hp
    cases k with
    | zero =>
      have : sendOk j = false := by simpa using hfail
      simp [send_overdue_loop, hp, this]
    | succ k =>
      have hj : sendOk j = true := by simpa using hbefore 0 (Nat.succ_pos k)
      have hrest := ih (j + 1) k (fun x hx => h x (by simp [hx]))
        (by simpa using Nat.lt_of_succ_lt_succ hk)
        (fun i hi => by
          have := hbefore (i + 1) (Nat.succ_lt_succ hi)
          simpa [Nat.add_assoc, Nat.add_comm 1 i] using this)
        (by simpa [Nat.add_assoc, Nat.add_comm 1 k] using hfail)
      simp [send_overdue_loop, hp, hj, hrest]

/-! ## Claim theorems -/

/-- C8: the request built by `get_overdue_leads` filters on exactly
`STATUS_ID = "NEW"` and `DATE_CREATE` strictly before two hours before the
call time (the Bitrix `<` filter prefix is strict), orders by `DATE_CREATE`
ascending, and selects exactly the fields `ID`, `TITLE`, `PHONE`; no other
filter, order, or projection entry is sent. -/
theorem C8_overdue_request_fields (now : Int) :
    (get_overdue_leads_request now).method = "crm.lead.list"
    ∧ (get_overdue_leads_request now).order = [("DATE_CREATE", "ASC")]
    ∧ (get_overdue_leads_request now).filter =
        [("STATUS_ID", FilterVal.str "NEW"),
         ("<DATE_CREATE", FilterVal.time (now - two_hours))]
    ∧ (get_overdue_leads_request now).select = ["ID", "TITLE", "PHONE"]
    ∧ two_hours = 7200 := by
  refine ⟨rfl, rfl, rfl, rfl, rfl⟩

/-- C2 counterexample: a 2xx response whose well-formed JSON body is a
non-success payload (it carries an `error` key and no `result` key) makes
`get_overdue_leads` return the empty-list success value `some []`, not the
error value `none` — contradicting the claim that a non-success response body
yields the `GatewayError` result, and that the empty list is returned exactly
when the CRM call succeeds with no matching leads. -/
theorem C2_counterexample :
    get_overdue_leads (.response 200 (.wellFormed true none)) = some []
    ∧ (some ([] : List Lead) ≠ (none : Option (List Lead)))
    ∧ gateway_request_raises (.response 200 (.wellFormed true none)) = false := by
  refine ⟨rfl, by simp, rfl⟩

/-- C2 (amended): `get_overdue_leads` returns `None` exactly when the HTTP
request raises — transport failure, status 400-599, or a body that does not
parse as JSON.  Any other response yields a list: the `result` field when
present, else the empty list, even when the body is an error payload without
a `result` field.  The empty-list and error outcomes are distinct values, but
an empty list does not imply that the CRM reported a successful query. -/
theorem C2_amended_classification (resp : HttpOutcome) :
    (get_overdue_leads resp = none ↔ gateway_request_raises resp = true)
    ∧ (∀ status hasError leads,
        resp = HttpOutcome.response status (Body.wellFormed hasError (some leads)) →
        raise_for_status_raises status = false →
        get_overdue_leads resp = some leads)
    ∧ (∀ status hasError,
        resp = HttpOutcome.response status (Body.wellFormed hasError none) →
        raise_for_status_raises status = false →
        get_overdue_leads resp = some []) := by
  refine ⟨?_, ?_, ?_⟩
  · cases resp with
    | transportError => simp [get_overdue_leads, gateway_request_raises]
    | response status body =>
      cases hs : raise_for_status_raises status with
      | true => simp [get_overdue_leads, gateway_request_raises, hs]
      | false =>
        cases body with
        | malformed => simp [get_overdue_leads, gateway_request_raises, hs]
        | wellFormed hasError result =>
          cases result with
          | none => simp [get_overdue_leads, gateway_request_raises, hs]
          | some leads =>
            by_cases he : leads.isEmpty <;>
              simp [get_overdue_leads, gateway_request_raises, hs, he]
  · rintro status hasError leads rfl hs
    by_cases he : leads.isEmpty
    · rw [List.isEmpty_iff] at he
      subst he
      simp [get_overdue_leads, hs]
    · simp [get_overdue_leads, hs, he]
  · rintro status hasError rfl hs
    simp [get_overdue_leads, hs]

/-- Witness for `C2_amended_classification`: a 200 response with body
`{"result": []}` yields the empty list. -/
theorem C2_amended_classification_witness :
    get_overdue_leads (.response 200 (.wellFormed false (some []))) = some [] :=
  (C2_amended_classification (.response 200 (.wellFormed false (some [])))).2.1
    200 false [] rfl (by decide)

/-- C9: phone extraction in the send loop is total only when every lead's
`PHONE` list is nonempty or absent.  An absent `PHONE` key renders the
sentinel `"не указан"`; a present `PHONE` key holding the empty list makes
`lead.get('PHONE', [{}])[0]` raise `IndexError`, so the cycle aborts with an
exception instead of rendering a message for that lead. -/
theorem C9_phone_extraction_cases (lead : Lead) (sendOk : Nat → Bool)
    (rest : List Lead) :
    (lead.PHONE = none →
      extract_phone lead = some "не указан"
      ∧ render_lead lead =
          OutMsg.withKeyboard
            (lead_message_text lead.ID lead.TITLE "не указан")
            (get_lead_keyboard lead.ID))
    ∧ (lead.PHONE = some [] →
      extract_phone lead = none
      ∧ send_leads_to_manager (some (lead :: rest)) sendOk = ([], false)) := by
  constructor
  · intro hp
    have he : extract_phone lead = some "не указан" := by
      simp [extract_phone, hp]
    exact ⟨he, by simp [render_lead, he]⟩
  · intro hp
    have he : extract_phone lead = none := (extract_phone_eq_none_iff lead).mpr hp
    exact ⟨he, by simp [send_leads_to_manager, send_overdue_loop, he]⟩

/-- Witness for `C9_phone_extraction_cases` at a concrete lead with an
absent `PHONE` key and a concrete lead with an empty `PHONE` list. -/
theorem C9_phone_extraction_cases_witness :
    extract_phone { ID := "7", TITLE := "Acme", PHONE := none } = some "не указан"
    ∧ send_leads_to_manager
        (some [{ ID := "8", TITLE := "Beta", PHONE := some [] }])
        (fun _ => true) = ([], false) := by
  refine ⟨?_, ?_⟩
  · exact ((C9_phone_extraction_cases
      { ID := "7", TITLE := "Acme", PHONE := none } (fun _ => true) []).1 rfl).1
  · exact ((C9_phone_extraction_cases
      { ID := "8", TITLE := "Beta", PHONE := some [] } (fun _ => true) []).2 rfl).2

/-- C1 counterexample: two leads are fetched, the Telegram send for the first
lead raises, and no message is sent for the second lead — the exception
escapes the loop (final flag `false`), so a failure for one lead does prevent
the messages for subsequent leads. -/
theorem C1_counterexample :
    send_leads_to_manager
        (some [{ ID := "1", TITLE := "A", PHONE := none },
               { ID := "2", TITLE := "B", PHONE := none }])
        (fun i => decide (0 < i)) = ([], false)
    ∧ render_lead { ID := "2", TITLE := "B", PHONE := none } ∉
        (send_leads_to_manager
          (some [{ ID := "1", TITLE := "A", PHONE := none },
                 { ID := "2", TITLE := "B", PHONE := none }])
          (fun i => decide (0 < i))).1 := by
  refine ⟨by decide, by decide⟩

/-- C1 (amended): the loop body has no exception handling, so the iteration
aborts at the first failing send: exactly the leads before the first failure
get their message, the remaining leads get none, and the exception escapes
`send_leads_to_manager` (it is caught only by `periodic_check`'s wrapper). -/
theorem C1_amended_send_failure_aborts (leads : List Lead) (sendOk : Nat → Bool)
    (k : Nat) (hphones : ∀ l ∈ leads, l.PHONE ≠ some [])
    (hk : k < leads.length)
    (hbefore : ∀ i, i < k → sendOk i = true)
    (hfail : sendOk k = false) :
    send_leads_to_manager (some leads) sendOk =
      ((leads.take k).map render_lead, false) := by
  have := send_overdue_loop_first_failure sendOk leads 0 k hphones hk
    (fun i hi => by simpa using hbefore i hi) (by simpa using hfail)
  simpa [send_leads_to_manager] using this

/-- Witness for `C1_amended_send_failure_aborts`: the send for the second of
two leads fails, so exactly the first lead's message is sent. -/
theorem C1_amended_send_failure_aborts_witness :
    send_leads_to_manager
        (some [{ ID := "3", TITLE := "C", PHONE := none },
               { ID := "4", TITLE := "D", PHONE := none }])
        (fun i => decide (i = 0)) =
      ([render_lead { ID := "3", TITLE := "C", PHONE := none }], false) :=
  C1_amended_send_failure_aborts
    [{ ID := "3", TITLE := "C", PHONE := none },
     { ID := "4", TITLE := "D", PHONE := none }]
    (fun i => decide (i = 0)) 1 (by decide) (by decide)
    (fun i hi => by
      have h0 : i = 0 := Nat.lt_one_iff.mp hi
      subst h0
      decide)
    (by decide)

/-- C3: `send_leads_to_manager`, per fetch outcome, with the Telegram send
channel functioning and every fetched lead renderable: on the error value it
sends exactly the one diagnostic message and no lead messages; on the empty
list it sends nothing; on N ≥ 1 leads it sends exactly the N rendered lead
messages and no diagnostic. -/
theorem C3_runCycle_message_counts (fetch : Option (List Lead))
    (sendOk : Nat → Bool) (hsend : ∀ i, sendOk i = true)
    (hphones : ∀ leads, fetch = some leads → ∀ l ∈ leads, l.PHONE ≠ some []) :
    (fetch = none →
      send_leads_to_manager fetch sendOk = ([.plain crm_unreachable_text], true))
    ∧ (fetch = some [] → send_leads_to_manager fetch sendOk = ([], true))
    ∧ (∀ leads, fetch = some leads →
        send_leads_to_manager fetch sendOk = (leads.map render_lead, true)
        ∧ (send_leads_to_manager fetch sendOk).1.length = leads.length
        ∧ OutMsg.plain crm_unreachable_text ∉
            (send_leads_to_manager fetch sendOk).1) := by
  refine ⟨?_, ?_, ?_⟩
  · rintro rfl
    simp [send_leads_to_manager, hsend 0]
  · rintro rfl
    rfl
  · rintro leads rfl
    have h := send_overdue_loop_all_ok sendOk hsend leads 0 (hphones leads rfl)
    refine ⟨by simpa [send_leads_to_manager] using h, ?_, ?_⟩
    · simp [send_leads_to_manager, h]
    · simp only [send_leads_to_manager, h]
      intro hmem
      obtain ⟨l, _, hl⟩ := List.mem_map.mp hmem
      simp [render_lead] at hl

/-- Witness for `C3_runCycle_message_counts`: one fetched lead, all sends
succeed, exactly one lead message goes out. -/
theorem C3_runCycle_message_counts_witness :
    send_leads_to_manager (some [{ ID := "5", TITLE := "E", PHONE := none }])
        (fun _ => true) =
      ([render_lead { ID := "5", TITLE := "E", PHONE := none }], true) :=
  ((C3_runCycle_message_counts
      (some [{ ID := "5", TITLE := "E", PHONE := none }]) (fun _ => true)
      (fun _ => rfl)
      (by
        intro leads hl
        injection hl with hl
        subst hl
        decide)).2.2
    [{ ID := "5", TITLE := "E", PHONE := none }] rfl).1

/-- C4: a failed Gateway write (the HTTP outcome parameter `false`) changes
nothing in what any of the three callback handlers does afterwards: each
handler still rewrites the message with its terminal label and still answers
the tap, and its whole result equals the result on a successful write. -/
theorem C4_gateway_failure_never_blocks (data msgText : String) (now : Int)
    (lead_id : String) (h : extract_lead_id data = some lead_id) :
    (process_callback_called false data msgText =
        process_callback_called true data msgText
      ∧ ∃ r, process_callback_called false data msgText = some r
          ∧ r.newText = msgText ++ called_label
          ∧ r.ack = "Отметили звонок по лиду " ++ lead_id)
    ∧ (process_callback_wrote false data msgText =
        process_callback_wrote true data msgText
      ∧ ∃ r, process_callback_wrote false data msgText = some r
          ∧ r.newText = msgText ++ wrote_label
          ∧ r.ack = "Отметили сообщение по лиду " ++ lead_id)
    ∧ (process_callback_delay false now data msgText =
        process_callback_delay true now data msgText
      ∧ ∃ r, process_callback_delay false now data msgText = some r
          ∧ r.newText = msgText ++ delay_label
          ∧ r.ack = "Создана задача для лида " ++ lead_id) := by
  refine ⟨⟨?_, ?_⟩, ⟨?_, ?_⟩, ⟨?_, ?_⟩⟩
  · simp [process_callback_called, h, add_comment_to_lead]
  · refine ⟨{ calls := [add_comment_request lead_id "Менеджер позвонил клиенту."]
              newText := msgText ++ called_label
              ack := "Отметили звонок по лиду " ++ lead_id }, ?_, rfl, rfl⟩
    simp [process_callback_called, h, add_comment_to_lead]
  · simp [process_callback_wrote, h, add_comment_to_lead]
  · refine ⟨{ calls := [add_comment_request lead_id "Менеджер написал клиенту."]
              newText := msgText ++ wrote_label
              ack := "Отметили сообщение по лиду " ++ lead_id }, ?_, rfl, rfl⟩
    simp [process_callback_wrote, h, add_comment_to_lead]
  · simp [process_callback_delay, h, create_task_for_lead]
  · refine ⟨{ calls := [create_task_request now lead_id]
              newText := msgText ++ delay_label
              ack := "Создана задача для лида " ++ lead_id }, ?_, rfl, rfl⟩
    simp [process_callback_delay, h, create_task_for_lead]

/-- Witness for `C4_gateway_failure_never_blocks` at `callback.data =
"called:42"`. -/
theorem C4_gateway_failure_never_blocks_witness :
    process_callback_called false "called:42" "msg" =
      process_callback_called true "called:42" "msg" :=
  (C4_gateway_failure_never_blocks "called:42" "msg" 0 "42" (by decide)).1.1

/-- C7: each action kind makes exactly one Gateway call of the matching kind
and appends exactly the matching terminal label: Called and Wrote issue one
`crm.timeline.comment.add` with their action-specific comment, Delay issues
one `tasks.task.add` with deadline = tap time + 2 hours; no handler issues
any other Gateway request. -/
theorem C7_action_to_gateway_call (ok : Bool) (now : Int)
    (data msgText lead_id : String) (h : extract_lead_id data = some lead_id) :
    process_callback_called ok data msgText =
      some { calls := [GatewayCall.timelineCommentAdd lead_id "lead"
                        "Менеджер позвонил клиенту."]
             newText := msgText ++ called_label
             ack := "Отметили звонок по лиду " ++ lead_id }
    ∧ process_callback_wrote ok data msgText =
      some { calls := [GatewayCall.timelineCommentAdd lead_id "lead"
                        "Менеджер написал клиенту."]
             newText := msgText ++ wrote_label
             ack := "Отметили сообщение по лиду " ++ lead_id }
    ∧ process_callback_delay ok now data msgText =
      some { calls := [GatewayCall.taskAdd
                        ("Связаться с клиентом по лиду №" ++ lead_id) 1
                        (now + two_hours) ["L_" ++ lead_id]]
             newText := msgText ++ delay_label
             ack := "Создана задача для лида " ++ lead_id } := by
  refine ⟨?_, ?_, ?_⟩ <;>
    simp [process_callback_called, process_callback_wrote,
      process_callback_delay, h, add_comment_to_lead, add_comment_request,
      create_task_for_lead, create_task_request]

/-- Witness for `C7_action_to_gateway_call` at `callback.data = "delay:42"`
reading off the Delay branch. -/
theorem C7_action_to_gateway_call_witness :
    process_callback_delay true 1000 "delay:42" "msg" =
      some { calls := [GatewayCall.taskAdd
                        ("Связаться с клиентом по лиду №" ++ "42") 1
                        (1000 + two_hours) ["L_" ++ "42"]]
             newText := "msg" ++ delay_label
             ack := "Создана задача для лида " ++ "42" } :=
  (C7_action_to_gateway_call true 1000 "delay:42" "msg" "42" (by decide)).2.2

/-- C10: resolving is not idempotent: applying the same action handler twice
to the same notification issues the Gateway call again and appends the
terminal label a second time — no handler checks whether the message is
already resolved. -/
theorem C10_double_resolution_not_idempotent (ok₁ ok₂ : Bool)
    (data msgText lead_id : String) (h : extract_lead_id data = some lead_id) :
    ∃ r₁ r₂,
      process_callback_called ok₁ data msgText = some r₁
      ∧ process_callback_called ok₂ data r₁.newText = some r₂
      ∧ r₁.calls = [add_comment_request lead_id "Менеджер позвонил клиенту."]
      ∧ r₂.calls = [add_comment_request lead_id "Менеджер позвонил клиенту."]
      ∧ r₂.newText = msgText ++ called_label ++ called_label := by
  refine ⟨{ calls := [add_comment_request lead_id "Менеджер позвонил клиенту."]
            newText := msgText ++ called_label
            ack := "Отметили звонок по лиду " ++ lead_id },
          { calls := [add_comment_request lead_id "Менеджер позвонил клиенту."]
            newText := msgText ++ called_label ++ called_label
            ack := "Отметили звонок по лиду " ++ lead_id },
          ?_, ?_, rfl, rfl, rfl⟩
  · simp [process_callback_called, h, add_comment_to_lead]
  · simp [process_callback_called, h, add_comment_to_lead]

/-- Witness for `C10_double_resolution_not_idempotent` at
`callback.data = "called:42"`. -/
theorem C10_double_resolution_not_idempotent_witness :
    ∃ r₁ r₂,
      process_callback_called true "called:42" "msg" = some r₁
      ∧ process_callback_called true "called:42" r₁.newText = some r₂
      ∧ r₁.calls = [add_comment_request "42" "Менеджер позвонил клиенту."]
      ∧ r₂.calls = [add_comment_request "42" "Менеджер позвонил клиенту."]
      ∧ r₂.newText = "msg" ++ called_label ++ called_label :=
  C10_double_resolution_not_idempotent true true "called:42" "msg" "42" (by decide)

theorem schedInv_init : SchedInv initSched := Or.inl ⟨rfl, rfl⟩

theorem schedInv_step (s : SchedState) (c : SchedCmd) (h : SchedInv s) :
    SchedInv (schedStep s c) := by
  cases c with
  | enable =>
    rcases h with ⟨h1, h2⟩ | ⟨id, h1, h2⟩
    · have hb : handle_is_active s = false := by simp [handle_is_active, h1]
      simp only [schedStep, turn_on_periodic_check, hb, Bool.false_eq_true,
        if_false]
      exact Or.inr ⟨s.nextId, rfl, by simp [h2]⟩
    · have hb : handle_is_active s = true := by
        simp [handle_is_active, h1, h2]
      simp only [schedStep, turn_on_periodic_check, hb, if_true]
      exact Or.inr ⟨id, h1, h2⟩
  | disable =>
    rcases h with ⟨h1, h2⟩ | ⟨id, h1, h2⟩
    · have hb : handle_is_active s = false := by simp [handle_is_active, h1]
      simp only [schedStep, turn_off_periodic_check, hb, Bool.false_eq_true,
        if_false]
      exact Or.inl ⟨h1, h2⟩
    · have hb : handle_is_active s = true := by
        simp [handle_is_active, h1, h2]
      simp only [schedStep, turn_off_periodic_check, hb, if_true, h1]
      exact Or.inl ⟨rfl, by simp [h2]⟩

theorem schedInv_run (cmds : List SchedCmd) : SchedInv (runSched cmds) := by
  have key : ∀ (cs : List SchedCmd) (s : SchedState), SchedInv s →
      SchedInv (cs.foldl schedStep s) := by
    intro cs
    induction cs with
    | nil => exact fun s h => h
    | cons c cs ih => exact fun s h => ih _ (schedInv_step s c h)
  exact key cmds initSched schedInv_init

/-- C5: the `periodic_check_task` global is a process-wide singleton.  After
any sequence of enable/disable commands at most one loop task is alive;
enabling while one is active changes nothing and replies "already on";
disabling while none is active changes nothing and replies "already off";
otherwise enabling creates the (single) loop and disabling cancels it and
clears the handle. -/
theorem C5_scheduler_handle_singleton (cmds : List SchedCmd) :
    (runSched cmds).activeIds.length ≤ 1
    ∧ (handle_is_active (runSched cmds) = true →
        turn_on_periodic_check (runSched cmds) = (runSched cmds, already_on_text))
    ∧ (handle_is_active (runSched cmds) = false →
        turn_off_periodic_check (runSched cmds) =
          (runSched cmds, already_off_text))
    ∧ (handle_is_active (runSched cmds) = false →
        (turn_on_periodic_check (runSched cmds)).2 = turned_on_text
        ∧ handle_is_active (turn_on_periodic_check (runSched cmds)).1 = true
        ∧ (turn_on_periodic_check (runSched cmds)).1.activeIds.length = 1)
    ∧ (handle_is_active (runSched cmds) = true →
        (turn_off_periodic_check (runSched cmds)).2 = turned_off_text
        ∧ (turn_off_periodic_check (runSched cmds)).1.handle = none
        ∧ (turn_off_periodic_check (runSched cmds)).1.activeIds = []) := by
  have hinv := schedInv_run cmds
  refine ⟨?_, ?_, ?_, ?_, ?_⟩
  · rcases hinv with ⟨_, h2⟩ | ⟨id, _, h2⟩ <;> simp [h2]
  · intro hb
    simp [turn_on_periodic_check, hb]
  · intro hb
    simp [turn_off_periodic_check, hb]
  · intro hb
    rcases hinv with ⟨h1, h2⟩ | ⟨id, h1, h2⟩
    · have hstep : turn_on_periodic_check (runSched cmds) =
          ({ handle := some (runSched cmds).nextId
             activeIds := (runSched cmds).nextId :: (runSched cmds).activeIds
             nextId := (runSched cmds).nextId + 1 }, turned_on_text) := by
        simp [turn_on_periodic_check, hb]
      refine ⟨by rw [hstep], ?_, ?_⟩
      · rw [hstep]
        simp [handle_is_active]
      · rw [hstep]
        simp [h2]
    · exact absurd hb (by simp [handle_is_active, h1, h2])
  · intro hb
    rcases hinv with ⟨h1, h2⟩ | ⟨id, h1, h2⟩
    · exact absurd hb (by simp [handle_is_active, h1])
    · refine ⟨?_, ?_, ?_⟩ <;>
        simp [turn_off_periodic_check, hb, h1, h2]

/-- Witness for `C5_scheduler_handle_singleton`: after one enable command the
loop is active and a second enable is the identity, replying "already on". -/
theorem C5_scheduler_handle_singleton_witness :
    turn_on_periodic_check (runSched [SchedCmd.enable]) =
      (runSched [SchedCmd.enable], already_on_text) :=
  (C5_scheduler_handle_singleton [SchedCmd.enable]).2.1 (by decide)

/-- C6: every iteration of `periodic_check` first runs the cycle, logs an
exception from it instead of propagating (so the next iteration always
happens), then sleeps for the interval: the trace of iteration n+1 extends
the trace of iteration n by one full iteration, and after n iterations
exactly n cycle invocations have occurred — for every sequence of cycle
outcomes, so the loop runs until externally cancelled. -/
theorem C6_loop_survives_cycle_failures (interval : Nat)
    (outcomes : Nat → CycleOutcome) (n : Nat) :
    countCycles (periodic_check_trace interval outcomes n) = n
    ∧ periodic_check_trace interval outcomes (n + 1) =
        periodic_check_trace interval outcomes n ++
          periodic_check_iteration interval (outcomes n)
    ∧ periodic_check_iteration interval CycleOutcome.ok =
        [LoopEvent.runCycle CycleOutcome.ok, LoopEvent.sleep interval]
    ∧ (∀ e, periodic_check_iteration interval (CycleOutcome.exc e) =
        [LoopEvent.runCycle (CycleOutcome.exc e), LoopEvent.logError e,
         LoopEvent.sleep interval]) := by
  refine ⟨?_, rfl, rfl, fun e => rfl⟩
  induction n with
  | zero => rfl
  | succ n ih =>
    have hone : countCycles (periodic_check_iteration interval (outcomes n)) = 1 := by
      cases outcomes n <;> rfl
    calc countCycles (periodic_check_trace interval outcomes (n + 1))
        = countCycles (periodic_check_trace interval outcomes n) +
            countCycles (periodic_check_iteration interval (outcomes n)) :=
          List.countP_append _ _ _
      _ = n + 1 := by rw [ih, hone]

end BotPy

